import Mathlib

/-!
Verification development for the Mermaid validation-and-correction engine
(`app/utils/mermaid_validator.py` of the `uml_gpt` repository), together with
the diagram-kind table of `app/core/config.py`.

The Python code matches lines against `re` patterns.  We embed each pattern as
a small regular-expression AST together with an executable Brzozowski-derivative
matcher; `reMatch` models Python's `re.match` (match a prefix of the string),
`reSearch` models `re.search` (match anywhere), and `reFullMatch` models a
pattern anchored on both sides (the one pattern written with `^...$`).
Python's `\w` is modelled for the ASCII inputs handled here; `\s` follows
Python's whitespace set.
-/

/-- Python `\s` whitespace class (`str.strip()` / `\s` for the ASCII range). -/
def pySpace (c : Char) : Bool :=
  c = ' ' || c = '\t' || c = '\n' || c = '\r' || c = '\x0b' || c = '\x0c'

/-- Python `str.strip()` on a character list. -/
def stripChars (l : List Char) : List Char :=
  ((l.dropWhile pySpace).reverse.dropWhile pySpace).reverse

/-- Python `str.strip()`: drop leading and trailing whitespace. -/
def pyStrip (s : String) : String := ⟨stripChars s.data⟩

/-- Python `str.split('\n')` on a character list (structural recursion, so
that the kernel can evaluate it). -/
def splitNl : List Char → List (List Char)
  | [] => [[]]
  | c :: cs =>
      match splitNl cs with
      | [] => [[c]]
      | cur :: rest => if c = '\n' then [] :: cur :: rest else (c :: cur) :: rest

/-- Lines of `mermaid_code.strip().split('\n')`, each `.strip()`ped, blank ones
dropped: the list `lines` built at the top of `validate_mermaid`. -/
def nonBlankLines (code : String) : List String :=
  ((splitNl (stripChars code.data)).map (fun cs => (⟨stripChars cs⟩ : String))).filter
    (fun l => l ≠ "")

/-- Regular-expression ASTs: empty string, a character class, concatenation,
alternation, Kleene star.  A class carries its membership test. -/
inductive Regex where
  | eps : Regex
  | cls (p : Char → Bool) : Regex
  | cat (a b : Regex) : Regex
  | alt (a b : Regex) : Regex
  | star (a : Regex) : Regex

/-- The empty language (a class no character satisfies). -/
def Regex.void : Regex := .cls (fun _ => false)

/-- Does the regex accept the empty string? -/
def Regex.nullable : Regex → Bool
  | .eps => true
  | .cls _ => false
  | .cat a b => a.nullable && b.nullable
  | .alt a b => a.nullable || b.nullable
  | .star _ => true

/-- Brzozowski derivative of a regex by a character. -/
def Regex.deriv : Regex → Char → Regex
  | .eps, _ => .void
  | .cls p, c => if p c then .eps else .void
  | .cat a b, c =>
      if a.nullable then .alt (.cat (a.deriv c) b) (b.deriv c)
      else .cat (a.deriv c) b
  | .alt a b, c => .alt (a.deriv c) (b.deriv c)
  | .star a, c => .cat (a.deriv c) (.star a)

/-- Does the regex accept the whole character list? -/
def Regex.acceptsList : Regex → List Char → Bool
  | r, [] => r.nullable
  | r, c :: cs => (r.deriv c).acceptsList cs

/-- Does the regex accept some prefix of the character list?
This is Python's `re.match` anchoring. -/
def Regex.matchesAt : Regex → List Char → Bool
  | r, [] => r.nullable
  | r, c :: cs => r.nullable || (r.deriv c).matchesAt cs

/-- Does the regex accept a prefix of some suffix of the character list?
This is Python's `re.search`. -/
def Regex.found : Regex → List Char → Bool
  | r, [] => r.nullable
  | r, c :: cs => r.matchesAt (c :: cs) || r.found cs

/-- Python `re.match(pattern, s)` viewed as a Boolean. -/
def reMatch (r : Regex) (s : String) : Bool := r.matchesAt s.data

/-- Python `re.search(pattern, s)` viewed as a Boolean. -/
def reSearch (r : Regex) (s : String) : Bool := r.found s.data

/-- A pattern anchored as `^...$` under `re.match` (whole-line match). -/
def reFullMatch (r : Regex) (s : String) : Bool := r.acceptsList s.data

/-- Single literal character. -/
def rchar (c : Char) : Regex := .cls (fun x => x = c)

/-- Literal character list. -/
def rlit : List Char → Regex
  | [] => .eps
  | c :: cs => .cat (rchar c) (rlit cs)

/-- Literal string. -/
def rstr (s : String) : Regex := rlit s.data

/-- `r?` -/
def ropt (r : Regex) : Regex := .alt .eps r

/-- `r+` -/
def rplus (r : Regex) : Regex := .cat r (.star r)

/-- `r{1,2}` -/
def rtwo (r : Regex) : Regex := .cat r (ropt r)

/-- Concatenation of a list of regexes. -/
def rcat (l : List Regex) : Regex := l.foldr .cat .eps

/-- Alternation of a list of regexes. -/
def ralt : List Regex → Regex
  | [] => Regex.void
  | [r] => r
  | r :: rs => .alt r (ralt rs)

/-- Python `\w` (ASCII model: letters, digits, underscore). -/
def wordC (c : Char) : Bool := c.isAlphanum || c = '_'

/-- `\w` -/
def rw : Regex := .cls wordC

/-- `\w+` -/
def rwPlus : Regex := rplus rw

/-- `\s*` -/
def rsStar : Regex := .star (.cls pySpace)

/-- `\s+` -/
def rsPlus : Regex := rplus (.cls pySpace)

/-- `.` (any character but newline). -/
def rdot : Regex := .cls (fun c => c ≠ '\n')

/-- `.+` -/
def rdotPlus : Regex := rplus rdot

/-- `.*` -/
def rdotStar : Regex := .star rdot

/-- `[^x]` for a single excluded character. -/
def rnot (c : Char) : Regex := .cls (fun x => x ≠ c)

/-- The double-quote / single-quote class `["']`. -/
def rquote : Regex := .cls (fun c => c = '"' || c = Char.ofNat 39)

/-- `[^"']` -/
def rnonquote : Regex := .cls (fun c => c ≠ '"' && c ≠ Char.ofNat 39)

/-! ### The grammar table `MermaidValidator.diagram_patterns`

One definition per regex in the Python table, in source order.  Literal
braces of the Python patterns are written with `\x7b` / `\x7d` escapes. -/

/-- `^sequenceDiagram\s*` -/
def seqStartPat : Regex := rcat [rstr "sequenceDiagram", rsStar]

/-- `participant\s+\w+(\s+as\s+["'][^"']*["'])?\s*` -/
def seqParticipantPat : Regex :=
  rcat [rstr "participant", rsPlus, rwPlus,
    ropt (rcat [rsPlus, rstr "as", rsPlus, rquote, .star rnonquote, rquote]), rsStar]

/-- `actor\s+\w+(\s+as\s+["'][^"']*["'])?\s*` -/
def seqActorPat : Regex :=
  rcat [rstr "actor", rsPlus, rwPlus,
    ropt (rcat [rsPlus, rstr "as", rsPlus, rquote, .star rnonquote, rquote]), rsStar]

/-- `\w+\s*-{1,2}>{1,2}\s*\w+\s*:\s*.+` -/
def seqArrowPat : Regex :=
  rcat [rwPlus, rsStar, rtwo (rchar '-'), rtwo (rchar '>'), rsStar, rwPlus,
    rsStar, rchar ':', rsStar, rdotPlus]

/-- `Note\s+(over|left of|right of)\s+\w+(,\w+)?\s*:\s*.+` -/
def seqNotePat : Regex :=
  rcat [rstr "Note", rsPlus, ralt [rstr "over", rstr "left of", rstr "right of"],
    rsPlus, rwPlus, ropt (rcat [rchar ',', rwPlus]), rsStar, rchar ':', rsStar, rdotPlus]

/-- `activate\s+\w+` -/
def seqActivatePat : Regex := rcat [rstr "activate", rsPlus, rwPlus]

/-- `deactivate\s+\w+` -/
def seqDeactivatePat : Regex := rcat [rstr "deactivate", rsPlus, rwPlus]

/-- `^(flowchart|graph)\s+(TD|TB|BT|RL|LR)\s*` -/
def flowStartPat : Regex :=
  rcat [ralt [rstr "flowchart", rstr "graph"], rsPlus,
    ralt [rstr "TD", rstr "TB", rstr "BT", rstr "RL", rstr "LR"], rsStar]

/-- `\w+\[[^\]]+\]|\w+\([^\)]+\)|\w+\{[^\}]+\}|\w+>[^\]]+\]|\w+` -/
def flowNodePat : Regex :=
  ralt [rcat [rwPlus, rchar '[', rplus (rnot ']'), rchar ']'],
    rcat [rwPlus, rchar '(', rplus (rnot ')'), rchar ')'],
    rcat [rwPlus, rchar '\x7b', rplus (rnot '\x7d'), rchar '\x7d'],
    rcat [rwPlus, rchar '>', rplus (rnot ']'), rchar ']'],
    rwPlus]

/-- `\w+\s*--[>o]?\s*\w+|\w+\s*-\.\s*\w+|\w+\s*==>\s*\w+` -/
def flowConnectionPat : Regex :=
  ralt [rcat [rwPlus, rsStar, rstr "--", ropt (.cls (fun c => c = '>' || c = 'o')), rsStar, rwPlus],
    rcat [rwPlus, rsStar, rchar '-', rchar '.', rsStar, rwPlus],
    rcat [rwPlus, rsStar, rstr "==>", rsStar, rwPlus]]

/-- `\w+\s*--\|[^\|]+\|\s*\w+` -/
def flowLabelPat : Regex :=
  rcat [rwPlus, rsStar, rstr "--", rchar '|', rplus (rnot '|'), rchar '|', rsStar, rwPlus]

/-- `subgraph\s+[^\n]+` -/
def flowSubgraphPat : Regex := rcat [rstr "subgraph", rsPlus, rplus (rnot '\n')]

/-- `^end\s*$` (anchored on both sides, hence used with `reFullMatch`). -/
def flowEndPat : Regex := rcat [rstr "end", rsStar]

/-- `^stateDiagram-v2\s*` -/
def stateStartPat : Regex := rcat [rstr "stateDiagram-v2", rsStar]

/-- `\w+\s*:\s*.+|\[?\*\]?\s*-->\s*\w+|\w+\s*-->\s*\[?\*\]?` -/
def stateStatePat : Regex :=
  ralt [rcat [rwPlus, rsStar, rchar ':', rsStar, rdotPlus],
    rcat [ropt (rchar '['), rchar '*', ropt (rchar ']'), rsStar, rstr "-->", rsStar, rwPlus],
    rcat [rwPlus, rsStar, rstr "-->", rsStar, ropt (rchar '['), rchar '*', ropt (rchar ']')]]

/-- `\w+\s*-->\s*\w+(\s*:\s*.+)?` -/
def stateTransitionPat : Regex :=
  rcat [rwPlus, rsStar, rstr "-->", rsStar, rwPlus,
    ropt (rcat [rsStar, rchar ':', rsStar, rdotPlus])]

/-- `^classDiagram\s*` -/
def classStartPat : Regex := rcat [rstr "classDiagram", rsStar]

/-- `class\s+\w+\s*\{[^\}]*\}` -/
def classClassPat : Regex :=
  rcat [rstr "class", rsPlus, rwPlus, rsStar, rchar '\x7b', .star (rnot '\x7d'), rchar '\x7d']

/-- `\w+\s*(<\|--|--\||--|\.\.|<\.\.|\.\.>|<\|\.\.)\s*\w+` -/
def classRelPat : Regex :=
  rcat [rwPlus, rsStar,
    ralt [rstr "<|--", rstr "--|", rstr "--", rstr "..", rstr "<..", rstr "..>", rstr "<|.."],
    rsStar, rwPlus]

/-- `^erDiagram\s*` -/
def erStartPat : Regex := rcat [rstr "erDiagram", rsStar]

/-- `\w+\s*(\|\|--[o\|]\{|\|\|--o\||\}\|--\|\||\|o--\|\|)\s*\w+` -/
def erRelPat : Regex :=
  rcat [rwPlus, rsStar,
    ralt [rcat [rstr "||--", .cls (fun c => c = 'o' || c = '|'), rchar '\x7b'],
      rstr "||--o|",
      rcat [rchar '\x7d', rstr "|--||"],
      rstr "|o--||"],
    rsStar, rwPlus]

/-- `\w+\s*\{[^\}]*\}` -/
def erEntityPat : Regex :=
  rcat [rwPlus, rsStar, rchar '\x7b', .star (rnot '\x7d'), rchar '\x7d']

/-- `^gantt\s*` -/
def ganttStartPat : Regex := rcat [rstr "gantt", rsStar]

/-- `title\s+.+` -/
def ganttTitlePat : Regex := rcat [rstr "title", rsPlus, rdotPlus]

/-- `section\s+.+` -/
def ganttSectionPat : Regex := rcat [rstr "section", rsPlus, rdotPlus]

/-- `.+\s*:\s*(done|active|crit)?,?\s*\w*,?\s*[\d-]+,?\s*\d*[dhm]?` -/
def ganttTaskPat : Regex :=
  rcat [rdotPlus, rsStar, rchar ':', rsStar,
    ropt (ralt [rstr "done", rstr "active", rstr "crit"]), ropt (rchar ','), rsStar,
    .star rw, ropt (rchar ','), rsStar,
    rplus (.cls (fun c => c.isDigit || c = '-')), ropt (rchar ','), rsStar,
    .star (.cls Char.isDigit), ropt (.cls (fun c => c = 'd' || c = 'h' || c = 'm'))]

/-! ### Per-line acceptance, one predicate per diagram family

Each predicate is the Boolean condition of the corresponding `for` loop body
in `MermaidValidator`: accept when any listed pattern fires, or when the
family's more permissive fallback checks fire. -/

/-- Is `needle` a contiguous sublist of the second list? -/
def listInfixOf (needle : List Char) : List Char → Bool
  | [] => needle.isEmpty
  | c :: cs => needle.isPrefixOf (c :: cs) || listInfixOf needle cs

/-- Python `sub in s` (substring containment). -/
def strContains (s sub : String) : Bool := listInfixOf sub.data s.data

/-- Line acceptance in `_validate_sequence_diagram` (all `re.match`). -/
def seqLineOk (l : String) : Bool :=
  reMatch seqParticipantPat l || reMatch seqActorPat l || reMatch seqArrowPat l ||
  reMatch seqNotePat l || reMatch seqActivatePat l || reMatch seqDeactivatePat l

/-- Line acceptance for non-structural lines in `_validate_flowchart`
(`re.search` on the three patterns, then the basic-node fallback). -/
def flowLineOk (l : String) : Bool :=
  reSearch flowNodePat l || reSearch flowConnectionPat l || reSearch flowLabelPat l ||
  (reSearch rwPlus l &&
    (strContains l "-->" || strContains l "->" || strContains l "[" || strContains l "("))

/-- Line acceptance in `_validate_state_diagram` (`re.search` plus fallbacks). -/
def stateLineOk (l : String) : Bool :=
  reSearch stateStatePat l || reSearch stateTransitionPat l ||
  (reSearch (rcat [rstr "note", rsPlus]) l ||
   reSearch (rcat [rstr "state", rsPlus, rwPlus]) l ||
   reSearch (rcat [rwPlus, rsStar, rstr "-->", rsStar, rwPlus]) l ||
   reSearch (rcat [rchar '[', rchar '*', rchar ']']) l ||
   reSearch (rcat [rwPlus, rsStar, rchar ':', rsStar]) l)

/-- Line acceptance in `_validate_class_diagram` (`re.search` plus fallbacks). -/
def classLineOk (l : String) : Bool :=
  reSearch classClassPat l || reSearch classRelPat l ||
  (reSearch (rcat [rwPlus, rsStar, rchar '\x7b']) l ||
   reSearch (rcat [ropt (.cls (fun c => c = '+' || c = '-' || c = '#' || c = '~')), rwPlus, rdotStar]) l ||
   reSearch (rchar '\x7d') l ||
   reSearch (rcat [rstr "class", rsPlus, rwPlus]) l)

/-- Line acceptance in `_validate_er_diagram` (`re.search` plus fallbacks). -/
def erLineOk (l : String) : Bool :=
  reSearch erRelPat l || reSearch erEntityPat l ||
  (reSearch (rcat [rwPlus, rsStar, rchar '\x7b']) l ||
   reSearch (rchar '\x7d') l ||
   reSearch (rcat [rwPlus, rsPlus, rwPlus]) l ||
   reSearch (rcat [rwPlus, rsStar,
     rplus (.cls (fun c => c = '|' || c = '\x7d' || c = '\x7b' || c = 'o' || c = '-')),
     rdotStar, rw]) l)

/-- Line acceptance in `_validate_gantt_diagram` (`re.search` plus fallbacks). -/
def ganttLineOk (l : String) : Bool :=
  reSearch ganttTitlePat l || reSearch ganttSectionPat l || reSearch ganttTaskPat l ||
  (reSearch (rcat [rstr "dateFormat", rsPlus]) l ||
   reSearch (rcat [rstr "axisFormat", rsPlus]) l ||
   reSearch (rcat [rstr "excludes", rsPlus]) l ||
   reSearch (rcat [rstr "todayMarker", rsPlus]) l ||
   reSearch (rcat [rwPlus, rsStar, rchar ':', rsStar]) l)

/-! ### The six `_validate_*` walks

`_validate_sequence_diagram`, `_validate_state_diagram`, `_validate_class_diagram`,
`_validate_er_diagram` and `_validate_gantt_diagram` share one control flow in the
source (skip blank lines, stop at the first line matching no pattern); we embed
that walk once (`lineWalk`) and instantiate it with each family's predicate and
error message, exactly as each Python loop reads. -/

/-- The shared "first bad line" walk. -/
def lineWalk (ok : String → Bool) (msgOf : String → String) : List String → Bool × Option String
  | [] => (true, none)
  | l :: rest =>
      if l = "" then lineWalk ok msgOf rest
      else if ok l then lineWalk ok msgOf rest
      else (false, some (msgOf l))

/-- `f"Invalid sequence diagram syntax: '{line}'"` -/
def seqLineMsg (l : String) : String := "Invalid sequence diagram syntax: \x27" ++ l ++ "\x27"

/-- `MermaidValidator._validate_sequence_diagram` on the body lines. -/
def _validate_sequence_diagram (lines : List String) : Bool × Option String :=
  lineWalk seqLineOk seqLineMsg lines

/-- `f"Invalid state diagram syntax: '{line}'"` -/
def stateLineMsg (l : String) : String := "Invalid state diagram syntax: \x27" ++ l ++ "\x27"

/-- `MermaidValidator._validate_state_diagram` on the body lines. -/
def _validate_state_diagram (lines : List String) : Bool × Option String :=
  lineWalk stateLineOk stateLineMsg lines

/-- `f"Invalid class diagram syntax: '{line}'"` -/
def classLineMsg (l : String) : String := "Invalid class diagram syntax: \x27" ++ l ++ "\x27"

/-- `MermaidValidator._validate_class_diagram` on the body lines. -/
def _validate_class_diagram (lines : List String) : Bool × Option String :=
  lineWalk classLineOk classLineMsg lines

/-- `f"Invalid ER diagram syntax: '{line}'"` -/
def erLineMsg (l : String) : String := "Invalid ER diagram syntax: \x27" ++ l ++ "\x27"

/-- `MermaidValidator._validate_er_diagram` on the body lines. -/
def _validate_er_diagram (lines : List String) : Bool × Option String :=
  lineWalk erLineOk erLineMsg lines

/-- `f"Invalid Gantt diagram syntax: '{line}'"` -/
def ganttLineMsg (l : String) : String := "Invalid Gantt diagram syntax: \x27" ++ l ++ "\x27"

/-- `MermaidValidator._validate_gantt_diagram` on the body lines. -/
def _validate_gantt_diagram (lines : List String) : Bool × Option String :=
  lineWalk ganttLineOk ganttLineMsg lines

/-- `f"Invalid flowchart syntax: '{line}'"` -/
def flowLineMsg (l : String) : String := "Invalid flowchart syntax: \x27" ++ l ++ "\x27"

/-- The message for unbalanced subgraph blocks. -/
def flowUnmatchedMsg : String := "Unmatched subgraph blocks (missing \x27end\x27 statements)"

/-- `MermaidValidator._validate_flowchart` on the body lines: a `subgraph` line
increments the depth, an `end` line decrements it (with no sign check), any
other line must pass `flowLineOk`; after the walk a nonzero depth fails. -/
def _validate_flowchart (depth : Int) : List String → Bool × Option String
  | [] => if depth ≠ 0 then (false, some flowUnmatchedMsg) else (true, none)
  | l :: rest =>
      if l = "" then _validate_flowchart depth rest
      else if reMatch flowSubgraphPat l then _validate_flowchart (depth + 1) rest
      else if reFullMatch flowEndPat l then _validate_flowchart (depth - 1) rest
      else if flowLineOk l then _validate_flowchart depth rest
      else (false, some (flowLineMsg l))

/-! ### `MermaidValidator.validate_mermaid` -/

/-- The alias normalisation at the top of `validate_mermaid`
(`component → flowchart`, `sequential`/`sequence → sequenceDiagram`,
`state → stateDiagram-v2`, `class → classDiagram`, `er → erDiagram`). -/
def normalizeKind (diagram_type : String) : String :=
  if diagram_type = "component" then "flowchart"
  else if diagram_type = "sequential" || diagram_type = "sequence" then "sequenceDiagram"
  else if diagram_type = "state" then "stateDiagram-v2"
  else if diagram_type = "class" then "classDiagram"
  else if diagram_type = "er" then "erDiagram"
  else diagram_type

/-- The keys of `MermaidValidator.diagram_patterns`. -/
def diagramKinds : List String :=
  ["sequenceDiagram", "flowchart", "stateDiagram-v2", "classDiagram", "erDiagram", "gantt"]

/-- The `start` matcher of each grammar (total, with a dead default for kinds
outside `diagramKinds`, which the membership test rules out before use). -/
def startPatOf (vtype : String) : Regex :=
  if vtype = "sequenceDiagram" then seqStartPat
  else if vtype = "flowchart" then flowStartPat
  else if vtype = "stateDiagram-v2" then stateStartPat
  else if vtype = "classDiagram" then classStartPat
  else if vtype = "erDiagram" then erStartPat
  else if vtype = "gantt" then ganttStartPat
  else Regex.void

/-- The source text of each grammar's `start` regex, as interpolated into the
`"Invalid ... start"` message. -/
def startSrcOf (vtype : String) : String :=
  if vtype = "sequenceDiagram" then "^sequenceDiagram\\s*"
  else if vtype = "flowchart" then "^(flowchart|graph)\\s+(TD|TB|BT|RL|LR)\\s*"
  else if vtype = "stateDiagram-v2" then "^stateDiagram-v2\\s*"
  else if vtype = "classDiagram" then "^classDiagram\\s*"
  else if vtype = "erDiagram" then "^erDiagram\\s*"
  else if vtype = "gantt" then "^gantt\\s*"
  else ""

/-- The per-kind dispatch at the bottom of `validate_mermaid` (the chain of
`if validation_type == ...` branches handing the body lines to a `_validate_*`
walk; the final `return True, None` default is kept although no key of
`diagramKinds` reaches it).  The `try/except` wrapper around this dispatch is
not modelled: every embedded walk is total, so the `except` arm is dead. -/
def bodyValidate (vtype : String) (body : List String) : Bool × Option String :=
  if vtype = "sequenceDiagram" then _validate_sequence_diagram body
  else if vtype = "flowchart" then _validate_flowchart 0 body
  else if vtype = "stateDiagram-v2" then _validate_state_diagram body
  else if vtype = "classDiagram" then _validate_class_diagram body
  else if vtype = "erDiagram" then _validate_er_diagram body
  else if vtype = "gantt" then _validate_gantt_diagram body
  else (true, none)

/-- `MermaidValidator.validate_mermaid(mermaid_code, diagram_type)`. -/
def validate_mermaid (mermaid_code diagram_type : String) : Bool × Option String :=
  if mermaid_code = "" || pyStrip mermaid_code = "" then
    (false, some "Empty Mermaid code provided")
  else
    match nonBlankLines mermaid_code with
    | [] => (false, some "No valid Mermaid content found")
    | first_line :: body =>
        let vtype := normalizeKind diagram_type
        if vtype ∈ diagramKinds then
          if !reMatch (startPatOf vtype) first_line then
            (false, some ("Invalid " ++ diagram_type ++ " start. Expected pattern: " ++
              startSrcOf vtype))
          else
            bodyValidate vtype body
        else
          (false, some ("Unsupported diagram type: " ++ diagram_type))

/-- `Settings.ALLOWED_DIAGRAM_TYPES` from `app/core/config.py`. -/
def ALLOWED_DIAGRAM_TYPES : List (String × String) :=
  [("sequential", "sequenceDiagram"),
   ("sequence", "sequenceDiagram"),
   ("component", "flowchart"),
   ("flowchart", "flowchart"),
   ("state", "stateDiagram-v2"),
   ("class", "classDiagram"),
   ("er", "erDiagram"),
   ("gantt", "gantt")]

/-! ### The derived stop index of a validation walk

`validate_mermaid` returns only a Boolean and a message; the specification's
verdict also names a line index.  `failIndex` derives that index from the same
walk: `-1` when the failure is structural (empty input, unsupported kind,
unmatched subgraph nesting), `0` when the start line mismatches, and the
position of the first offending line (in `nonBlankLines`) otherwise. -/

/-- Does a body line stop the `vtype` walk?  (Never true of blank lines or of
flowchart `subgraph`/`end` lines, which the walk always accepts.) -/
def lineFails (vtype : String) (l : String) : Bool :=
  if l = "" then false
  else if vtype = "sequenceDiagram" then !seqLineOk l
  else if vtype = "flowchart" then
    !reMatch flowSubgraphPat l && !reFullMatch flowEndPat l && !flowLineOk l
  else if vtype = "stateDiagram-v2" then !stateLineOk l
  else if vtype = "classDiagram" then !classLineOk l
  else if vtype = "erDiagram" then !erLineOk l
  else if vtype = "gantt" then !ganttLineOk l
  else false

/-- Position of the first element satisfying `p`. -/
def firstIdxWhere (p : String → Bool) : List String → Option Nat
  | [] => none
  | l :: rest => if p l then some 0 else (firstIdxWhere p rest).map (· + 1)

/-- The index (into `nonBlankLines`) at which `validate_mermaid`'s walk stops,
`-1` for structural failures; meaningful only when validation fails. -/
def failIndex (mermaid_code diagram_type : String) : Int :=
  if mermaid_code = "" || pyStrip mermaid_code = "" then -1
  else
    match nonBlankLines mermaid_code with
    | [] => -1
    | first_line :: body =>
        let vtype := normalizeKind diagram_type
        if vtype ∈ diagramKinds then
          if !reMatch (startPatOf vtype) first_line then 0
          else
            match firstIdxWhere (lineFails vtype) body with
            | some j => (j : Int) + 1
            | none => -1
        else -1

/-! ### `MermaidCorrector.validate_and_correct`

The oracle (`generator`) is modelled by one behaviour per loop iteration:
the LLM call either returns text, raises `asyncio.TimeoutError` (which
`_get_llm_correction` converts into an `HTTPException(504)`), or raises some
other exception (e.g. the `HTTPException(502)` of `_llm_correction_call`).
`client` tells whether `generator.client` is configured; when it is not,
`_get_llm_correction` returns its input unchanged and performs no call. -/

/-- What the LLM call of one loop iteration does. -/
inductive OracleBehavior where
  | returns (text : String)
  | timeout
  | failure (status : Nat) (detail : String)
deriving DecidableEq

/-- Outcome of `validate_and_correct`: a returned pair, or a raised
`HTTPException(status_code, detail)` escaping the method. -/
inductive CorrectionResult where
  | ok (text : String) (wasCorrected : Bool)
  | httpError (status : Nat) (detail : String)
deriving DecidableEq

/-- `MermaidCorrector.max_retries`. -/
def max_retries : Nat := 3

/-- `MermaidCorrector._get_llm_correction`: with a configured client the call
is made (and a timeout becomes `HTTPException(504, "Mermaid correction
timeout")`); without one the invalid input is returned as the "correction". -/
def _get_llm_correction (client : Bool) (beh : OracleBehavior)
    (invalid_mermaid : String) : Except (Nat × String) String :=
  if client then
    match beh with
    | .returns t => .ok t
    | .timeout => .error (504, "Mermaid correction timeout")
    | .failure s d => .error (s, d)
  else
    .ok invalid_mermaid

/-- Python's rendering of `error_message` into the final f-string. -/
def showOpt : Option String → String
  | some s => s
  | none => "None"

/-- The `HTTPException(422)` detail raised after the loop. -/
def exhaustDetail (err : Option String) : String :=
  "Failed to generate valid Mermaid diagram after " ++ toString max_retries ++
    " attempts. Last error: " ++ showOpt err

/-- The `for attempt in range(max_retries)` loop of `validate_and_correct`:
`fuel` counts the remaining iterations, `i` the current iteration index,
`cur` is `current_mermaid` and `err` is `error_message`.  Any exception from
an iteration — including the 504 of an oracle timeout — is caught by the
`except Exception: continue` arm, which leaves `cur` and `err` unchanged. -/
def correction_attempts (client : Bool) (oracle : Nat → OracleBehavior)
    (diagram_type : String) : Nat → Nat → String → Option String → CorrectionResult
  | 0, _, _, err => .httpError 422 (exhaustDetail err)
  | fuel + 1, i, cur, err =>
      match _get_llm_correction client (oracle i) cur with
      | .error _ => correction_attempts client oracle diagram_type fuel (i + 1) cur err
      | .ok corrected =>
          match validate_mermaid corrected diagram_type with
          | (true, _) => .ok corrected true
          | (false, err2) =>
              correction_attempts client oracle diagram_type fuel (i + 1) corrected err2

/-- `MermaidCorrector.validate_and_correct(mermaid_code, diagram_type, ...)`. -/
def validate_and_correct (client : Bool) (oracle : Nat → OracleBehavior)
    (mermaid_code diagram_type : String) : CorrectionResult :=
  match validate_mermaid mermaid_code diagram_type with
  | (true, _) => .ok mermaid_code false
  | (false, err) =>
      correction_attempts client oracle diagram_type max_retries 0 mermaid_code err

/-- Number of LLM invocations performed by `correction_attempts`; mirrors its
control flow (one call per iteration when the client is configured, none when
it is not). -/
def correction_attempts_calls (client : Bool) (oracle : Nat → OracleBehavior)
    (diagram_type : String) : Nat → Nat → String → Nat
  | 0, _, _ => 0
  | fuel + 1, i, cur =>
      (if client then 1 else 0) +
      match _get_llm_correction client (oracle i) cur with
      | .error _ => correction_attempts_calls client oracle diagram_type fuel (i + 1) cur
      | .ok corrected =>
          match validate_mermaid corrected diagram_type with
          | (true, _) => 0
          | (false, _) => correction_attempts_calls client oracle diagram_type fuel (i + 1) corrected

/-- Number of LLM invocations performed by `validate_and_correct`; mirrors its
control flow. -/
def validate_and_correct_calls (client : Bool) (oracle : Nat → OracleBehavior)
    (mermaid_code diagram_type : String) : Nat :=
  match validate_mermaid mermaid_code diagram_type with
  | (true, _) => 0
  | (false, _) => correction_attempts_calls client oracle diagram_type max_retries 0 mermaid_code

/-! ### Supporting lemmas -/

theorem firstIdxWhere_lt_length (p : String → Bool) :
    ∀ (l : List String) (j : Nat), firstIdxWhere p l = some j → j < l.length := by
  intro l
  induction l with
  | nil => intro j h; simp [firstIdxWhere] at h
  | cons a rest ih =>
      intro j h
      by_cases ha : p a
      · simp [firstIdxWhere, ha] at h
        simp only [List.length_cons]
        omega
      · simp [firstIdxWhere, ha] at h
        obtain ⟨k, hk, hkj⟩ := h
        have := ih k hk
        simp only [List.length_cons]
        omega

theorem append_data_ne_nil (s t : String) (h : s.data ≠ []) : (s ++ t).data ≠ [] := by
  rw [String.data_append]
  cases hs : s.data with
  | nil => exact absurd hs h
  | cons c cs => simp

theorem head_append_left (s t : String) (h : s.data ≠ []) :
    (s ++ t).data.head? = s.data.head? := by
  rw [String.data_append]
  cases hs : s.data with
  | nil => exact absurd hs h
  | cons c cs => rfl

theorem msg_head (pre l suf : String) (c : Char) (h : pre.data.head? = some c) :
    (pre ++ l ++ suf).data.head? = some c := by
  have h1 : pre.data ≠ [] := by
    intro hn
    rw [hn] at h
    cases h
  rw [head_append_left _ _ (append_data_ne_nil _ _ h1), head_append_left _ _ h1, h]

theorem ne_empty_of_head (m : String) (c : Char) (h : m.data.head? = some c) : m ≠ "" := by
  intro he
  subst he
  cases h

theorem lineWalk_false (ok : String → Bool) (msgOf : String → String) :
    ∀ body : List String, (lineWalk ok msgOf body).1 = false →
      ∃ l j, (lineWalk ok msgOf body).2 = some (msgOf l) ∧
        firstIdxWhere (fun s => !(s = "") && !ok s) body = some j ∧ j < body.length := by
  intro body
  induction body with
  | nil => intro h; simp [lineWalk] at h
  | cons a rest ih =>
      intro h
      by_cases ha : a = ""
      · rw [lineWalk, if_pos ha] at h
        obtain ⟨l, j, h1, h2, h3⟩ := ih h
        refine ⟨l, j + 1, ?_, ?_, ?_⟩
        · rw [lineWalk, if_pos ha]
          exact h1
        · simp [firstIdxWhere, ha, h2]
        · simp only [List.length_cons]
          omega
      · by_cases hok : ok a
        · rw [lineWalk, if_neg ha, if_pos hok] at h
          obtain ⟨l, j, h1, h2, h3⟩ := ih h
          refine ⟨l, j + 1, ?_, ?_, ?_⟩
          · rw [lineWalk, if_neg ha, if_pos hok]
            exact h1
          · simp [firstIdxWhere, ha, hok, h2]
          · simp only [List.length_cons]
            omega
        · refine ⟨a, 0, ?_, ?_, ?_⟩
          · rw [lineWalk, if_neg ha, if_neg hok]
          · simp [firstIdxWhere, ha, hok]
          · simp

theorem lineFails_seq :
    lineFails "sequenceDiagram" = (fun s => !(s = "") && !seqLineOk s) := by
  funext l
  by_cases hl : l = "" <;> simp [lineFails, hl]

theorem lineFails_state :
    lineFails "stateDiagram-v2" = (fun s => !(s = "") && !stateLineOk s) := by
  funext l
  by_cases hl : l = "" <;> simp [lineFails, hl]

theorem lineFails_class :
    lineFails "classDiagram" = (fun s => !(s = "") && !classLineOk s) := by
  funext l
  by_cases hl : l = "" <;> simp [lineFails, hl]

theorem lineFails_er :
    lineFails "erDiagram" = (fun s => !(s = "") && !erLineOk s) := by
  funext l
  by_cases hl : l = "" <;> simp [lineFails, hl]

theorem lineFails_gantt :
    lineFails "gantt" = (fun s => !(s = "") && !ganttLineOk s) := by
  funext l
  by_cases hl : l = "" <;> simp [lineFails, hl]

theorem lineFails_flow (l : String) :
    lineFails "flowchart" l =
      (!(l = "") && (!reMatch flowSubgraphPat l && !reFullMatch flowEndPat l && !flowLineOk l)) := by
  by_cases hl : l = "" <;> simp [lineFails, hl]

theorem flowWalk_false :
    ∀ (body : List String) (depth : Int), (_validate_flowchart depth body).1 = false →
      ∃ m, (_validate_flowchart depth body).2 = some m ∧
        ((∃ l, m = flowLineMsg l) ∨ m = flowUnmatchedMsg) := by
  intro body
  induction body with
  | nil =>
      intro depth h
      by_cases hd : depth = 0
      · simp [_validate_flowchart, hd] at h
      · refine ⟨flowUnmatchedMsg, ?_, Or.inr rfl⟩
        simp [_validate_flowchart, hd]
  | cons a rest ih =>
      intro depth h
      simp only [_validate_flowchart] at h ⊢
      by_cases ha : a = ""
      · rw [if_pos ha] at h ⊢
        exact ih depth h
      · rw [if_neg ha] at h ⊢
        by_cases hsub : reMatch flowSubgraphPat a = true
        · rw [if_pos hsub] at h ⊢
          exact ih (depth + 1) h
        · rw [if_neg hsub] at h ⊢
          by_cases hend : reFullMatch flowEndPat a = true
          · rw [if_pos hend] at h ⊢
            exact ih (depth - 1) h
          · rw [if_neg hend] at h ⊢
            by_cases hok : flowLineOk a = true
            · rw [if_pos hok] at h ⊢
              exact ih depth h
            · rw [if_neg hok] at h ⊢
              exact ⟨flowLineMsg a, rfl, Or.inl ⟨a, rfl⟩⟩

theorem seqLineMsg_head (l : String) : (seqLineMsg l).data.head? = some 'I' :=
  msg_head _ _ _ _ rfl

theorem stateLineMsg_head (l : String) : (stateLineMsg l).data.head? = some 'I' :=
  msg_head _ _ _ _ rfl

theorem classLineMsg_head (l : String) : (classLineMsg l).data.head? = some 'I' :=
  msg_head _ _ _ _ rfl

theorem erLineMsg_head (l : String) : (erLineMsg l).data.head? = some 'I' :=
  msg_head _ _ _ _ rfl

theorem ganttLineMsg_head (l : String) : (ganttLineMsg l).data.head? = some 'I' :=
  msg_head _ _ _ _ rfl

theorem flowLineMsg_head (l : String) : (flowLineMsg l).data.head? = some 'I' :=
  msg_head _ _ _ _ rfl

theorem bodyValidate_false (vtype : String) (body : List String)
    (h : (bodyValidate vtype body).1 = false) :
    ∃ m, (bodyValidate vtype body).2 = some m ∧
      (m.data.head? = some 'I' ∨ m = flowUnmatchedMsg) := by
  by_cases h1 : vtype = "sequenceDiagram"
  · subst h1
    simp only [bodyValidate, reduceIte, _validate_sequence_diagram] at h ⊢
    obtain ⟨l, j, hm, -, -⟩ := lineWalk_false seqLineOk seqLineMsg body h
    exact ⟨seqLineMsg l, hm, Or.inl (seqLineMsg_head l)⟩
  · by_cases h2 : vtype = "flowchart"
    · subst h2
      simp only [bodyValidate, reduceIte, reduceCtorEq] at h ⊢
      obtain ⟨m, hm, hshape⟩ := flowWalk_false body 0 h
      refine ⟨m, hm, ?_⟩
      rcases hshape with ⟨l, rfl⟩ | rfl
      · exact Or.inl (flowLineMsg_head l)
      · exact Or.inr rfl
    · by_cases h3 : vtype = "stateDiagram-v2"
      · subst h3
        simp only [bodyValidate, reduceIte, _validate_state_diagram] at h ⊢
        obtain ⟨l, j, hm, -, -⟩ := lineWalk_false stateLineOk stateLineMsg body h
        exact ⟨stateLineMsg l, hm, Or.inl (stateLineMsg_head l)⟩
      · by_cases h4 : vtype = "classDiagram"
        · subst h4
          simp only [bodyValidate, reduceIte, _validate_class_diagram] at h ⊢
          obtain ⟨l, j, hm, -, -⟩ := lineWalk_false classLineOk classLineMsg body h
          exact ⟨classLineMsg l, hm, Or.inl (classLineMsg_head l)⟩
        · by_cases h5 : vtype = "erDiagram"
          · subst h5
            simp only [bodyValidate, reduceIte, _validate_er_diagram] at h ⊢
            obtain ⟨l, j, hm, -, -⟩ := lineWalk_false erLineOk erLineMsg body h
            exact ⟨erLineMsg l, hm, Or.inl (erLineMsg_head l)⟩
          · by_cases h6 : vtype = "gantt"
            · subst h6
              simp only [bodyValidate, reduceIte, _validate_gantt_diagram] at h ⊢
              obtain ⟨l, j, hm, -, -⟩ := lineWalk_false ganttLineOk ganttLineMsg body h
              exact ⟨ganttLineMsg l, hm, Or.inl (ganttLineMsg_head l)⟩
            · simp [bodyValidate, h1, h2, h3, h4, h5, h6] at h

theorem startMsg_head (kind src : String) :
    ("Invalid " ++ kind ++ " start. Expected pattern: " ++ src).data.head? = some 'I' := by
  have h1 : ("Invalid " : String).data ≠ [] := by decide
  rw [head_append_left _ _ (append_data_ne_nil _ _ (append_data_ne_nil _ _ h1)),
    head_append_left _ _ (append_data_ne_nil _ _ h1), head_append_left _ _ h1]
  rfl

theorem unsupportedMsg_head (kind : String) :
    ("Unsupported diagram type: " ++ kind).data.head? = some 'U' := by
  rw [head_append_left _ _ (show ("Unsupported diagram type: " : String).data ≠ [] by decide)]
  rfl

theorem validate_false_shape (code kind : String)
    (h : (validate_mermaid code kind).1 = false) :
    ∃ m, (validate_mermaid code kind).2 = some m ∧
      (m = "Empty Mermaid code provided" ∨ m = "No valid Mermaid content found" ∨
       (m = "Unsupported diagram type: " ++ kind ∧ normalizeKind kind ∉ diagramKinds) ∨
       m.data.head? = some 'I' ∨ m = flowUnmatchedMsg) := by
  simp only [validate_mermaid] at h ⊢
  by_cases hb : (decide (code = "") || decide (pyStrip code = "")) = true
  · rw [if_pos hb] at h ⊢
    exact ⟨_, rfl, Or.inl rfl⟩
  · rw [if_neg hb] at h ⊢
    cases hL : nonBlankLines code with
    | nil =>
        simp only [hL] at h ⊢
        exact ⟨_, rfl, Or.inr (Or.inl rfl)⟩
    | cons first body =>
        simp only [hL] at h ⊢
        by_cases hmem : normalizeKind kind ∈ diagramKinds
        · rw [if_pos hmem] at h ⊢
          by_cases hstart : (!reMatch (startPatOf (normalizeKind kind)) first) = true
          · rw [if_pos hstart] at h ⊢
            exact ⟨_, rfl, Or.inr (Or.inr (Or.inr (Or.inl (startMsg_head _ _))))⟩
          · rw [if_neg hstart] at h ⊢
            obtain ⟨m, hm, hsh⟩ := bodyValidate_false _ body h
            refine ⟨m, hm, Or.inr (Or.inr (Or.inr ?_))⟩
            rcases hsh with h' | h'
            · exact Or.inl h'
            · exact Or.inr h'
        · rw [if_neg hmem] at h ⊢
          exact ⟨_, rfl, Or.inr (Or.inr (Or.inl ⟨rfl, hmem⟩))⟩

theorem failIndex_range (code kind : String) :
    failIndex code kind = -1 ∨
      (0 ≤ failIndex code kind ∧ failIndex code kind < ((nonBlankLines code).length : Int)) := by
  simp only [failIndex]
  by_cases hb : (decide (code = "") || decide (pyStrip code = "")) = true
  · rw [if_pos hb]
    exact Or.inl rfl
  · rw [if_neg hb]
    cases hL : nonBlankLines code with
    | nil =>
        simp only [hL]
        exact Or.inl trivial
    | cons first body =>
        simp only [hL]
        by_cases hmem : normalizeKind kind ∈ diagramKinds
        · rw [if_pos hmem]
          by_cases hstart : (!reMatch (startPatOf (normalizeKind kind)) first) = true
          · rw [if_pos hstart]
            refine Or.inr ⟨le_refl 0, ?_⟩
            simp only [List.length_cons]
            push_cast
            omega
          · rw [if_neg hstart]
            cases hidx : firstIdxWhere (lineFails (normalizeKind kind)) body with
            | none =>
                simp only [hidx]
                exact Or.inl trivial
            | some j =>
                have hj := firstIdxWhere_lt_length _ _ _ hidx
                simp only [hidx, List.length_cons]
                refine Or.inr ⟨by omega, ?_⟩
                push_cast
                omega
        · rw [if_neg hmem]
          exact Or.inl rfl

theorem loop_timeout (o : Nat → OracleBehavior) (kind : String) (ho : ∀ i, o i = .timeout) :
    ∀ (fuel i : Nat) (cur : String) (err : Option String),
      correction_attempts true o kind fuel i cur err = .httpError 422 (exhaustDetail err) := by
  intro fuel
  induction fuel with
  | zero => intro i cur err; rfl
  | succ n ih =>
      intro i cur err
      simp only [correction_attempts, _get_llm_correction, ho i, reduceIte]
      exact ih (i + 1) cur err

theorem loop_timeout_calls (o : Nat → OracleBehavior) (kind : String)
    (ho : ∀ i, o i = .timeout) :
    ∀ (fuel i : Nat) (cur : String),
      correction_attempts_calls true o kind fuel i cur = fuel := by
  intro fuel
  induction fuel with
  | zero => intro i cur; rfl
  | succ n ih =>
      intro i cur
      simp only [correction_attempts_calls, _get_llm_correction, ho i, reduceIte]
      rw [ih (i + 1) cur]
      omega

theorem correction_attempts_succ (client : Bool) (o : Nat → OracleBehavior) (kind : String)
    (fuel i : Nat) (cur : String) (err : Option String) :
    correction_attempts client o kind (fuel + 1) i cur err =
      match _get_llm_correction client (o i) cur with
      | .error _ => correction_attempts client o kind fuel (i + 1) cur err
      | .ok corrected =>
          match validate_mermaid corrected kind with
          | (true, _) => .ok corrected true
          | (false, err2) => correction_attempts client o kind fuel (i + 1) corrected err2 :=
  rfl

theorem correction_attempts_calls_succ (client : Bool) (o : Nat → OracleBehavior)
    (kind : String) (fuel i : Nat) (cur : String) :
    correction_attempts_calls client o kind (fuel + 1) i cur =
      (if client then 1 else 0) +
      match _get_llm_correction client (o i) cur with
      | .error _ => correction_attempts_calls client o kind fuel (i + 1) cur
      | .ok corrected =>
          match validate_mermaid corrected kind with
          | (true, _) => 0
          | (false, _) => correction_attempts_calls client o kind fuel (i + 1) corrected :=
  rfl

theorem loop_noclient (o : Nat → OracleBehavior) (kind code m : String)
    (hv : validate_mermaid code kind = (false, some m)) :
    ∀ (fuel i : Nat) (err : Option String),
      correction_attempts false o kind (fuel + 1) i code err =
        .httpError 422 (exhaustDetail (some m)) := by
  intro fuel
  induction fuel with
  | zero =>
      intro i err
      rw [correction_attempts_succ]
      simp only [_get_llm_correction, Bool.false_eq_true, if_false, hv]
      rfl
  | succ n ih =>
      intro i err
      rw [correction_attempts_succ]
      simp only [_get_llm_correction, Bool.false_eq_true, if_false, hv]
      exact ih (i + 1) (some m)

theorem loop_noclient_calls (o : Nat → OracleBehavior) (kind : String) :
    ∀ (fuel i : Nat) (cur : String),
      correction_attempts_calls false o kind fuel i cur = 0 := by
  intro fuel
  induction fuel with
  | zero => intro i cur; rfl
  | succ n ih =>
      intro i cur
      rw [correction_attempts_calls_succ]
      simp only [_get_llm_correction, Bool.false_eq_true, if_false, Nat.zero_add]
      rcases hv : validate_mermaid cur kind with ⟨b, e⟩
      cases b
      · simpa using ih (i + 1) cur
      · simp

theorem loop_allinvalid (o : Nat → OracleBehavior) (kind : String) (t m : Nat → String)
    (ho : ∀ i, o i = .returns (t i))
    (hv : ∀ i, validate_mermaid (t i) kind = (false, some (m i))) :
    ∀ (fuel i : Nat) (cur : String) (err : Option String),
      correction_attempts true o kind (fuel + 1) i cur err =
        .httpError 422 (exhaustDetail (some (m (i + fuel)))) := by
  intro fuel
  induction fuel with
  | zero =>
      intro i cur err
      rw [correction_attempts_succ]
      simp only [_get_llm_correction, if_true, ho i, hv i, Nat.add_zero]
      rfl
  | succ n ih =>
      intro i cur err
      rw [correction_attempts_succ]
      simp only [_get_llm_correction, if_true, ho i, hv i]
      rw [ih (i + 1) (t i) (some (m i))]
      have harith : i + 1 + n = i + (n + 1) := by omega
      rw [harith]

theorem loop_allinvalid_calls (o : Nat → OracleBehavior) (kind : String) (t m : Nat → String)
    (ho : ∀ i, o i = .returns (t i))
    (hv : ∀ i, validate_mermaid (t i) kind = (false, some (m i))) :
    ∀ (fuel i : Nat) (cur : String),
      correction_attempts_calls true o kind fuel i cur = fuel := by
  intro fuel
  induction fuel with
  | zero => intro i cur; rfl
  | succ n ih =>
      intro i cur
      rw [correction_attempts_calls_succ]
      simp only [_get_llm_correction, if_true, ho i, hv i]
      rw [ih (i + 1) (t i)]
      omega

/-! ### Claims -/

/-- C3: for every diagram kind and every text the Validator judges valid,
`validate_and_correct` returns that exact input text with `was_corrected =
false` and performs zero oracle invocations. -/
theorem claim3_valid_input_unchanged (client : Bool) (o : Nat → OracleBehavior)
    (code kind : String) (h : (validate_mermaid code kind).1 = true) :
    validate_and_correct client o code kind = .ok code false ∧
    validate_and_correct_calls client o code kind = 0 := by
  rcases hv : validate_mermaid code kind with ⟨b, e⟩
  rw [hv] at h
  simp only at h
  subst h
  constructor
  · simp [validate_and_correct, hv]
  · simp [validate_and_correct_calls, hv]

/-- Witness for C3 at kind `flowchart` and scenario A's valid input. -/
theorem claim3_valid_input_unchanged_witness :
    (validate_mermaid "flowchart TD\nA[Start]-->B(Process)\nB-->C[End]" "flowchart").1 = true ∧
    validate_and_correct true (fun _ => .timeout)
        "flowchart TD\nA[Start]-->B(Process)\nB-->C[End]" "flowchart" =
      .ok "flowchart TD\nA[Start]-->B(Process)\nB-->C[End]" false ∧
    validate_and_correct_calls true (fun _ => .timeout)
        "flowchart TD\nA[Start]-->B(Process)\nB-->C[End]" "flowchart" = 0 :=
  ⟨by decide,
   (claim3_valid_input_unchanged true (fun _ => .timeout) _ _ (by decide)).1,
   (claim3_valid_input_unchanged true (fun _ => .timeout) _ _ (by decide)).2⟩

/-- C4 counterexample: a flowchart body consisting of an `end` line followed by
a `subgraph` line is ACCEPTED by the code (the close at depth 0 merely drives
the depth negative and the walk continues), contradicting the claimed
immediate "unmatched close" failure. -/
theorem claim4_counterexample :
    validate_mermaid "flowchart TD\nend\nsubgraph X" "flowchart" = (true, none) := by
  decide

/-- C4 (amended): a line closing a subgraph block is always accepted and merely
decrements the depth — even when the depth is already zero there is no
immediate failure and no "unmatched close" diagnostic; only a nonzero depth
left at the end of the walk fails.  In particular `end` followed by `subgraph`
(net depth zero) validates successfully. -/
theorem claim4_amended :
    (∀ (depth : Int) (rest : List String),
        _validate_flowchart depth ("end" :: rest) = _validate_flowchart (depth - 1) rest) ∧
    validate_mermaid "flowchart TD\nend\nsubgraph X" "flowchart" = (true, none) := by
  constructor
  · intro depth rest
    simp only [_validate_flowchart]
    rw [if_neg (show ¬(("end" : String) = "") by decide),
      if_neg (show ¬(reMatch flowSubgraphPat "end" = true) by decide),
      if_pos (show reFullMatch flowEndPat "end" = true by decide)]
  · decide

/-- C5 counterexample: the empty-input verdict's reason is the literal
`"Empty Mermaid code provided"`, not `"empty input"` as claimed. -/
theorem claim5_counterexample :
    (validate_mermaid "" "flowchart").2 ≠ some "empty input" ∧
    (validate_mermaid "   \n  " "flowchart").2 ≠ some "empty input" := by
  exact ⟨by decide, by decide⟩

/-- C5 (amended): for every diagram-type string, validating the empty string or
a whitespace-only string fails before any line is examined, with reason
`"Empty Mermaid code provided"` and derived stop index `-1`. -/
theorem claim5_amended (kind : String) :
    validate_mermaid "" kind = (false, some "Empty Mermaid code provided") ∧
    validate_mermaid "   \n  " kind = (false, some "Empty Mermaid code provided") ∧
    failIndex "" kind = -1 ∧ failIndex "   \n  " kind = -1 :=
  ⟨rfl, rfl, rfl, rfl⟩

/-- C7 counterexample: the unmatched-block reason is
`"Unmatched subgraph blocks (missing 'end' statements)"`, which does not
contain the claimed lowercase substring `"unmatched"`. -/
theorem claim7_counterexample :
    (validate_mermaid "flowchart TD\nsubgraph X\nA-->B" "flowchart").2 =
      some flowUnmatchedMsg ∧
    strContains flowUnmatchedMsg "unmatched" = false := by
  exact ⟨by decide, by decide⟩

/-- C7 (amended): scenario C's input (a `subgraph` opened and never closed)
fails with the structural verdict: reason
`"Unmatched subgraph blocks (missing 'end' statements)"` (containing
`"Unmatched"` with a capital U) and derived stop index `-1`; in general a
flowchart walk that reaches the end of the lines with nonzero depth returns
exactly that verdict. -/
theorem claim7_amended :
    validate_mermaid "flowchart TD\nsubgraph X\nA-->B" "flowchart" =
      (false, some flowUnmatchedMsg) ∧
    failIndex "flowchart TD\nsubgraph X\nA-->B" "flowchart" = -1 ∧
    strContains flowUnmatchedMsg "Unmatched" = true ∧
    (∀ depth : Int, depth ≠ 0 →
        _validate_flowchart depth [] = (false, some flowUnmatchedMsg)) := by
  refine ⟨by decide, by decide, by decide, ?_⟩
  intro depth hd
  simp [_validate_flowchart, hd]

/-- Witness for C7's general clause at depth 1. -/
theorem claim7_amended_witness :
    _validate_flowchart 1 [] = (false, some flowUnmatchedMsg) :=
  claim7_amended.2.2.2 1 (by decide)

/-- C8 counterexample: scenario B's reason is
`"Invalid sequence diagram syntax: 'Hello world'"`, which does not contain the
claimed substring `"invalid sequenceDiagram syntax"`. -/
theorem claim8_counterexample :
    (validate_mermaid "sequenceDiagram\nHello world" "sequence").2 =
      some (seqLineMsg "Hello world") ∧
    strContains (seqLineMsg "Hello world") "invalid sequenceDiagram syntax" = false := by
  exact ⟨by decide, by decide⟩

/-- C8 (amended): for kind `sequence`, validating
`"sequenceDiagram\nHello world"` stops at the first body line (overall line
index 1) with reason `"Invalid sequence diagram syntax: 'Hello world'"`,
which contains `"Invalid sequence diagram syntax"`. -/
theorem claim8_amended :
    validate_mermaid "sequenceDiagram\nHello world" "sequence" =
      (false, some (seqLineMsg "Hello world")) ∧
    failIndex "sequenceDiagram\nHello world" "sequence" = 1 ∧
    strContains (seqLineMsg "Hello world") "Invalid sequence diagram syntax" = true := by
  exact ⟨by decide, by decide, by decide⟩

theorem unsupported_unreachable (code k : String)
    (hmem : normalizeKind k ∈ diagramKinds)
    (h1 : ("Unsupported diagram type: " ++ k) ≠ "Empty Mermaid code provided")
    (h2 : ("Unsupported diagram type: " ++ k) ≠ "No valid Mermaid content found")
    (h3 : ("Unsupported diagram type: " ++ k).data.head? ≠ some 'I')
    (h4 : ("Unsupported diagram type: " ++ k) ≠ flowUnmatchedMsg) :
    validate_mermaid code k ≠ (false, some ("Unsupported diagram type: " ++ k)) := by
  intro he
  have hf : (validate_mermaid code k).1 = false := by rw [he]
  obtain ⟨m, hm, hsh⟩ := validate_false_shape code k hf
  rw [he] at hm
  have hm2 : ("Unsupported diagram type: " ++ k) = m := Option.some.inj hm
  subst hm2
  rcases hsh with h' | h' | ⟨h', hnm⟩ | h' | h'
  · exact h1 h'
  · exact h2 h'
  · exact hnm hmem
  · exact h3 h'
  · exact h4 h'

/-- C6: every key of `ALLOWED_DIAGRAM_TYPES` normalises to a kind that has a
grammar in the pattern table, so for those keys the `"Unsupported diagram
type"` branch of `validate_mermaid` is unreachable for every input text. -/
theorem claim6_normalization_total (k : String)
    (hk : k ∈ ALLOWED_DIAGRAM_TYPES.map Prod.fst) :
    normalizeKind k ∈ diagramKinds ∧
    ∀ code : String,
      validate_mermaid code k ≠ (false, some ("Unsupported diagram type: " ++ k)) := by
  have hk' : k = "sequential" ∨ k = "sequence" ∨ k = "component" ∨ k = "flowchart" ∨
      k = "state" ∨ k = "class" ∨ k = "er" ∨ k = "gantt" := by
    simpa [ALLOWED_DIAGRAM_TYPES] using hk
  rcases hk' with rfl | rfl | rfl | rfl | rfl | rfl | rfl | rfl <;>
    exact ⟨by decide, fun code =>
      unsupported_unreachable code _ (by decide) (by decide) (by decide) (by decide) (by decide)⟩

/-- Witness for C6 at the key `"sequential"`. -/
theorem claim6_normalization_total_witness :
    normalizeKind "sequential" ∈ diagramKinds ∧
    validate_mermaid "x" "sequential" ≠
      (false, some ("Unsupported diagram type: " ++ "sequential")) :=
  ⟨(claim6_normalization_total "sequential" (by decide)).1,
   (claim6_normalization_total "sequential" (by decide)).2 "x"⟩

/-- C9: whenever `validate_mermaid` returns an invalid verdict, the verdict
carries a non-empty reason, and the derived stop index of the walk is either
`-1` (structural failure) or within the bounds of the input's non-blank
lines. -/
theorem claim9_invalid_invariant (code kind : String)
    (h : (validate_mermaid code kind).1 = false) :
    (∃ m, (validate_mermaid code kind).2 = some m ∧ m ≠ "") ∧
    (failIndex code kind = -1 ∨
      (0 ≤ failIndex code kind ∧
        failIndex code kind < ((nonBlankLines code).length : Int))) := by
  refine ⟨?_, failIndex_range code kind⟩
  obtain ⟨m, hm, hsh⟩ := validate_false_shape code kind h
  refine ⟨m, hm, ?_⟩
  rcases hsh with rfl | rfl | ⟨rfl, -⟩ | h' | rfl
  · decide
  · decide
  · exact ne_empty_of_head _ 'U' (unsupportedMsg_head kind)
  · exact ne_empty_of_head _ 'I' h'
  · decide

/-- Witness for C9 at the empty input and kind `gantt`. -/
theorem claim9_invalid_invariant_witness :
    (∃ m, (validate_mermaid "" "gantt").2 = some m ∧ m ≠ "") ∧
    (failIndex "" "gantt" = -1 ∨
      (0 ≤ failIndex "" "gantt" ∧
        failIndex "" "gantt" < ((nonBlankLines "").length : Int))) :=
  claim9_invalid_invariant "" "gantt" (by decide)

/-- C1 counterexample: with an oracle that times out on every attempt (in
particular on attempt 1), the run does NOT end early with the distinct
oracle-fault outcome (the 504): the timeout is swallowed by the loop's
`except Exception: continue`, all three iterations are consumed (three oracle
invocations), and the run ends with the 422 exhaustion failure. -/
theorem claim1_counterexample :
    validate_and_correct true (fun _ => .timeout) "bad" "flowchart" =
      .httpError 422 (exhaustDetail
        (some ("Invalid flowchart start. Expected pattern: " ++ startSrcOf "flowchart"))) ∧
    validate_and_correct true (fun _ => .timeout) "bad" "flowchart" ≠
      .httpError 504 "Mermaid correction timeout" ∧
    validate_and_correct_calls true (fun _ => .timeout) "bad" "flowchart" = 3 := by
  exact ⟨by decide, by decide, by decide⟩

/-- C1 (amended): an oracle timeout in an attempt raises the 504
`HTTPException` inside `_get_llm_correction`, but the loop catches it and
continues: the iteration is consumed with text and diagnostic unchanged, the
504 never escapes, and when every attempt times out the run ends with the 422
exhaustion failure carrying the pre-loop validation reason, after
`max_retries` oracle invocations. -/
theorem claim1_timeout_swallowed :
    (∀ (o : Nat → OracleBehavior) (kind : String) (fuel i : Nat) (cur : String)
        (err : Option String), o i = .timeout →
        correction_attempts true o kind (fuel + 1) i cur err =
          correction_attempts true o kind fuel (i + 1) cur err) ∧
    (∀ code kind m : String, validate_mermaid code kind = (false, some m) →
        validate_and_correct true (fun _ => .timeout) code kind =
          .httpError 422 (exhaustDetail (some m)) ∧
        validate_and_correct_calls true (fun _ => .timeout) code kind = max_retries) := by
  constructor
  · intro o kind fuel i cur err hoi
    rw [correction_attempts_succ]
    simp only [_get_llm_correction, if_true, hoi]
  · intro code kind m hv
    constructor
    · simp only [validate_and_correct, hv, max_retries]
      exact loop_timeout _ _ (fun _ => rfl) 3 0 code (some m)
    · simp only [validate_and_correct_calls, hv, max_retries]
      exact loop_timeout_calls _ _ (fun _ => rfl) 3 0 code

/-- Witness for C1 (amended) at scenario B's invalid input. -/
theorem claim1_timeout_swallowed_witness :
    (validate_and_correct true (fun _ => .timeout) "sequenceDiagram\nHello world" "sequence" =
        .httpError 422 (exhaustDetail (some (seqLineMsg "Hello world"))) ∧
      validate_and_correct_calls true (fun _ => .timeout)
        "sequenceDiagram\nHello world" "sequence" = max_retries) ∧
    correction_attempts true (fun _ => .timeout) "flowchart" (2 + 1) 0 "x" (some "e") =
      correction_attempts true (fun _ => .timeout) "flowchart" 2 1 "x" (some "e") :=
  ⟨claim1_timeout_swallowed.2 "sequenceDiagram\nHello world" "sequence"
      (seqLineMsg "Hello world") (by decide),
   claim1_timeout_swallowed.1 (fun _ => .timeout) "flowchart" 2 0 "x" (some "e") rfl⟩

/-- C2: when the oracle is available and every oracle result fails
re-validation, the loop performs exactly `max_retries` (3) oracle invocations
and then reports the 422 exhaustion failure whose message carries the most
recent validation reason (that of the third attempt's output). -/
theorem claim2_attempt_budget (o : Nat → OracleBehavior) (t m : Nat → String)
    (code kind m0 : String)
    (h0 : validate_mermaid code kind = (false, some m0))
    (ho : ∀ i, o i = .returns (t i))
    (hv : ∀ i, validate_mermaid (t i) kind = (false, some (m i))) :
    validate_and_correct true o code kind = .httpError 422 (exhaustDetail (some (m 2))) ∧
    validate_and_correct_calls true o code kind = max_retries := by
  constructor
  · simp only [validate_and_correct, h0, max_retries]
    exact loop_allinvalid o kind t m ho hv 2 0 code (some m0)
  · simp only [validate_and_correct_calls, h0, max_retries]
    exact loop_allinvalid_calls o kind t m ho hv 3 0 code

/-- Witness for C2: an oracle that always returns the (still invalid) text
`"x"` for the invalid input `"y"` of kind `flowchart`. -/
theorem claim2_attempt_budget_witness :
    validate_and_correct true (fun _ => .returns "x") "y" "flowchart" =
      .httpError 422 (exhaustDetail
        (some ("Invalid flowchart start. Expected pattern: " ++ startSrcOf "flowchart"))) ∧
    validate_and_correct_calls true (fun _ => .returns "x") "y" "flowchart" = max_retries := by
  have hx : validate_mermaid "x" "flowchart" =
      (false, some ("Invalid flowchart start. Expected pattern: " ++ startSrcOf "flowchart")) := by
    decide
  exact claim2_attempt_budget (fun _ => .returns "x") (fun _ => "x")
    (fun _ => "Invalid flowchart start. Expected pattern: " ++ startSrcOf "flowchart")
    "y" "flowchart" ("Invalid flowchart start. Expected pattern: " ++ startSrcOf "flowchart")
    (by decide) (fun _ => rfl) (fun _ => hx)

/-- C10: with no LLM client configured, `_get_llm_correction` returns its input
unchanged instead of failing, so for every input that fails validation the
loop runs all three attempts on identical text, performs zero oracle
invocations, and ends with the same 422 exhaustion error carrying the original
diagnostic — oracle unavailability is never reported as a distinct outcome. -/
theorem claim10_no_client_fallback (o : Nat → OracleBehavior) (code kind m : String)
    (hv : validate_mermaid code kind = (false, some m)) :
    (∀ (beh : OracleBehavior) (cur : String), _get_llm_correction false beh cur = .ok cur) ∧
    validate_and_correct false o code kind = .httpError 422 (exhaustDetail (some m)) ∧
    validate_and_correct_calls false o code kind = 0 := by
  refine ⟨fun beh cur => rfl, ?_, ?_⟩
  · simp only [validate_and_correct, hv, max_retries]
    exact loop_noclient o kind code m hv 2 0 (some m)
  · simp only [validate_and_correct_calls, hv, max_retries]
    exact loop_noclient_calls o kind 3 0 code

/-- Witness for C10 at scenario B's invalid input. -/
theorem claim10_no_client_fallback_witness :
    (∀ (beh : OracleBehavior) (cur : String), _get_llm_correction false beh cur = .ok cur) ∧
    validate_and_correct false (fun _ => .timeout) "sequenceDiagram\nHello world" "sequence" =
      .httpError 422 (exhaustDetail (some (seqLineMsg "Hello world"))) ∧
    validate_and_correct_calls false (fun _ => .timeout)
      "sequenceDiagram\nHello world" "sequence" = 0 :=
  claim10_no_client_fallback (fun _ => .timeout) "sequenceDiagram\nHello world" "sequence"
    (seqLineMsg "Hello world") (by decide)
